import Mathlib

/-!
# Verification of the Cursor usage monitor (`cursor_monitor.py`)

A shallow embedding of the poll logic of `CursorMonitor`:

* `UsageSnapshot` models the parsed JSON returned by the provider's
  `get-monthly-invoice` endpoint (optional `items`, optional `usageEvents`).
* `get_current_usage` models the fetcher with its current-month / previous-month
  fallback and its exception classification (the four `raise Exception(...)`
  sites), as a function of an abstract HTTP responder.
* `normalizeTotal` models lines 158-171 of `check_usage` (the spend normalizer).
* `send_notification` models the three-channel fan-out, as a function of an
  abstract channel environment (whether `pync` imports, whether the webhook
  POST raises).
* `check_usage` models one poll iteration as a pure function from the old
  `MonitorState` and the fetch outcome to the new state, the persisted flag,
  the dispatched channel actions and the log lines.

Machine-level details that Python leaves abstract stay abstract here:
timestamps are `Nat`, the local-timezone rendering of `datetime.fromtimestamp`
in the recent-events context lines is kept as structured data
(`LogEntry.eventContext`) rather than a formatted string, and dict-key absence
is `Option`.
-/

/-- One entry of the `items` list of the provider response.  The `cents` field
is optional because a JSON object need not carry the key; the source reads it
with a direct index `item['cents']` (line 161), which raises `KeyError` when
absent. -/
structure Item where
  cents : Option Int
  deriving Repr, DecidableEq

/-- One entry of the `usageEvents` list.  `priceCents` is read defensively with
`.get('priceCents', 0)`; `timestamp` is read with a direct index
`event['timestamp']` (line 197); the model label is read with a fully
defensive `.get` chain ending in `'unknown'` (line 199), collapsed here to an
optional string. -/
structure UsageEvent where
  priceCents : Option Int
  timestamp : Option Nat
  modelIntent : Option String
  deriving Repr, DecidableEq

/-- The parsed JSON body of a provider response: dict-key absence of `items`
or `usageEvents` is identified with the empty list, as only truthiness and
iteration are used in the source. -/
structure UsageSnapshot where
  items : List Item
  usageEvents : List UsageEvent
  deriving Repr, DecidableEq

/-- The explicit empty snapshot returned when no tried month has data
(line 119: `{"items": [], "usageEvents": [], "pricingDescription": {}}`). -/
def emptySnapshot : UsageSnapshot := ⟨[], []⟩

/-- Truthiness test `data.get('items') or (data.get('usageEvents') and len(data['usageEvents']) > 0)`
(line 102): the snapshot has line items or at least one usage event. -/
def snapshotNonEmpty (d : UsageSnapshot) : Bool :=
  !d.items.isEmpty || d.usageEvents.length > 0

/-- The four distinct `raise Exception(...)` sites of `get_current_usage`
(lines 108, 111, 113, 116), kept apart as constructors. -/
inductive FetchError where
  | invalidJson (detail : String)
  | authenticationFailed
  | apiRequestFailed (status : Nat)
  | networkError (detail : String)
  deriving Repr, DecidableEq

/-- The message string each raise site puts into its `Exception`. -/
def FetchError.message : FetchError → String
  | .invalidJson d => "Invalid JSON response: " ++ d
  | .authenticationFailed => "Authentication failed - session token may be expired"
  | .apiRequestFailed s => "API request failed with status " ++ toString s
  | .networkError d => "Network error: " ++ d

/-- Outcome of one `requests.post` call to the invoice endpoint:
either the call raises a `requests.RequestException`, or a response arrives
with a status code and (when read) a JSON parse outcome for its body. -/
inductive HttpOutcome where
  | requestException (detail : String)
  | response (status : Nat) (body : Except String UsageSnapshot)
  deriving Repr

/-- Models `months_to_try` (lines 76-79): current month first, then the preceding
month, with January falling back to December of the previous year. -/
def monthsToTry (nowMonth nowYear : Nat) : List (Nat × Nat) :=
  [(nowMonth, nowYear),
   (if nowMonth > 1 then nowMonth - 1 else 12,
    if nowMonth > 1 then nowYear else nowYear - 1)]

/-- Body of the `for month, year in months_to_try` loop of `get_current_usage`
(lines 81-119): each month is queried in order; a 200 response with a
non-empty snapshot is returned, a 200 response with an empty snapshot falls
through to the next month, every failure raises immediately; when the list is
exhausted the explicit empty snapshot is returned. -/
def fetchLoop (resp : Nat × Nat → HttpOutcome) :
    List (Nat × Nat) → Except FetchError UsageSnapshot
  | [] => .ok emptySnapshot
  | my :: rest =>
    match resp my with
    | .requestException d => .error (.networkError d)
    | .response status body =>
      if status = 200 then
        match body with
        | .ok data =>
          if snapshotNonEmpty data then .ok data else fetchLoop resp rest
        | .error d => .error (.invalidJson d)
      else if status = 401 then .error .authenticationFailed
      else .error (.apiRequestFailed status)

/-- Models `get_current_usage` (lines 58-119), as a function of the abstract HTTP
responder and the current date. -/
def get_current_usage (resp : Nat × Nat → HttpOutcome) (nowMonth nowYear : Nat) :
    Except FetchError UsageSnapshot :=
  fetchLoop resp (monthsToTry nowMonth nowYear)

/-- The `KeyError`s that can escape the body of `check_usage`:
`usage_data['items'][0]['cents']` (line 161) and `event['timestamp']`
(line 197). -/
inductive KeyError where
  | missingCents
  | missingTimestamp
  deriving Repr, DecidableEq

/-- Python renders `str(e)` for a `KeyError` as the repr of the missing key. -/
def KeyError.message : KeyError → String
  | .missingCents => "'cents'"
  | .missingTimestamp => "'timestamp'"

/-- The spend normalizer (lines 158-171 of `check_usage`): the first line
item's `cents` when items are present (raising `KeyError('cents')` when the
key is absent), else the sum of `event.get('priceCents', 0)` over the usage
events, else zero. -/
def normalizeTotal (u : UsageSnapshot) : Except KeyError Int :=
  match u.items with
  | item :: _ =>
    match item.cents with
    | some c => .ok c
    | none => .error .missingCents
  | [] =>
    if u.usageEvents.length > 0 then
      .ok (u.usageEvents.map (fun e => e.priceCents.getD 0)).sum
    else
      .ok 0

/-- Models `f"{cents/100:.2f}"` for a non-negative integer number of cents: the
float `cents/100` is within 2^-44 of the exact two-decimal value, so the
two-decimal rendering is exact. -/
def formatDollars (cents : Int) : String :=
  let n := cents.toNat
  toString (n / 100) ++ "." ++ (if n % 100 < 10 then "0" else "") ++ toString (n % 100)

/-- The `notification_methods` record of the configuration file. -/
structure NotificationMethods where
  console : Bool
  desktop : Bool
  webhook : Bool
  webhook_url : String
  deriving Repr, DecidableEq

/-- The configuration fields `check_usage` and `send_notification` read. -/
structure Config where
  notification_threshold_cents : Int
  notification_methods : NotificationMethods
  deriving Repr, DecidableEq

/-- The persisted monitor state (`cursor_monitor_state.json`):
`{"last_total_cents": 0, "last_check": None}` initially. -/
structure MonitorState where
  last_total_cents : Int
  last_check : Option Nat
  deriving Repr, DecidableEq

/-- Whether `from pync import Notifier; Notifier.notify(...)` succeeds, raises
`ImportError`, or raises some other exception (lines 129-136). -/
inductive DesktopOutcome where
  | ok
  | importError
  | otherError (detail : String)
  deriving Repr, DecidableEq

/-- Whether the webhook `requests.post` succeeds or raises (lines 140-151). -/
inductive WebhookOutcome where
  | ok
  | transportError (detail : String)
  deriving Repr, DecidableEq

/-- The environment of a notification dispatch: the outcome each side-effecting
channel would have if run. -/
structure ChannelEnv where
  desktop : DesktopOutcome
  webhook : WebhookOutcome
  deriving Repr, DecidableEq

/-- One observable action of `send_notification`: a console print with its
timestamp prefix, a desktop notification or its degraded warning print, a
webhook POST of `{text, timestamp}` or its degraded warning print. -/
inductive ChannelAction where
  | consolePrint (time : Nat) (message : String)
  | desktopNotify (message : String)
  | desktopWarn (detail : String)
  | webhookPost (url : String) (text : String) (time : Nat)
  | webhookWarn (detail : String)
  deriving Repr, DecidableEq

/-- Which channel an action belongs to (console / desktop / webhook). -/
inductive Channel where
  | console
  | desktop
  | webhook
  deriving Repr, DecidableEq

/-- The channel of an action. -/
def ChannelAction.channel : ChannelAction → Channel
  | .consolePrint _ _ => .console
  | .desktopNotify _ => .desktop
  | .desktopWarn _ => .desktop
  | .webhookPost _ _ _ => .webhook
  | .webhookWarn _ => .webhook

/-- The console block of `send_notification` (lines 123-125). -/
def consoleActions (cfg : Config) (now : Nat) (message : String) :
    List ChannelAction :=
  if cfg.notification_methods.console then [.consolePrint now message] else []

/-- The desktop block of `send_notification` (lines 127-136): an `ImportError`
degrades to the install hint, any other exception degrades to a failure
warning; neither propagates. -/
def desktopActions (cfg : Config) (env : ChannelEnv) (message : String) :
    List ChannelAction :=
  if cfg.notification_methods.desktop then
    match env.desktop with
    | .ok => [.desktopNotify message]
    | .importError =>
      [.desktopWarn "Desktop notifications require the 'pync' package. Install with: pip install pync"]
    | .otherError d => [.desktopWarn ("Desktop notification failed: " ++ d)]
  else []

/-- The webhook block of `send_notification` (lines 138-151): runs only when
the webhook toggle is on and a URL is configured; any exception from the POST
is swallowed into a warning. -/
def webhookActions (cfg : Config) (env : ChannelEnv) (now : Nat)
    (message : String) : List ChannelAction :=
  if cfg.notification_methods.webhook ∧ cfg.notification_methods.webhook_url ≠ "" then
    match env.webhook with
    | .ok =>
      [.webhookPost cfg.notification_methods.webhook_url
        ("Cursor Usage Alert: " ++ message) now]
    | .transportError d => [.webhookWarn ("Webhook notification failed: " ++ d)]
  else []

/-- Models `send_notification` (lines 121-151): console, then desktop, then webhook,
each block independent of the others' outcomes. -/
def send_notification (cfg : Config) (env : ChannelEnv) (now : Nat)
    (message : String) : List ChannelAction :=
  consoleActions cfg now message ++ desktopActions cfg env message ++
    webhookActions cfg env now message

/-- The guard the source puts in front of each channel block: line 124 for
console, line 128 for desktop, line 139 for webhook (toggle on and a
non-empty URL). -/
def channelEnabled (cfg : Config) : Channel → Bool
  | .console => cfg.notification_methods.console
  | .desktop => cfg.notification_methods.desktop
  | .webhook =>
    cfg.notification_methods.webhook && !(cfg.notification_methods.webhook_url == "")

/-- The informational prints of `check_usage`, kept as structured data (the
exact float/time formatting of lines 200, 202, 209, 211 carries no decision
logic; `datetime.fromtimestamp` even depends on the local timezone). -/
inductive LogEntry where
  | errorChecking (message : String)
  | subThreshold (increaseCents thresholdCents : Int)
  | noChange (cents : Int)
  | decreased (fromCents toCents : Int)
  | eventContext (timestamp : Nat) (priceCents : Int) (model : String)
  deriving Repr, DecidableEq

/-- The recent-events context loop of the notification branch
(lines 196-200): prints one context line per event, reading `timestamp` with
a direct index; a missing `timestamp` raises `KeyError` after the earlier
lines were already printed.  Returns the printed lines and whether the loop
raised. -/
def renderEvents : List UsageEvent → List LogEntry × Bool
  | [] => ([], false)
  | e :: rest =>
    match e.timestamp with
    | none => ([], true)
    | some t =>
      let r := renderEvents rest
      (.eventContext t (e.priceCents.getD 0) (e.modelIntent.getD "unknown") :: r.1, r.2)

/-- Models `recent_events` (line 195): the first three usage events with a positive
`priceCents`. -/
def recentEvents (u : UsageSnapshot) : List UsageEvent :=
  (u.usageEvents.filter (fun e => 0 < e.priceCents.getD 0)).take 3

/-- The observable outcome of one `check_usage` call: the in-memory state
afterwards, whether `save_state` wrote it to disk, the notification actions
dispatched, and the informational / error prints. -/
structure PollResult where
  state : MonitorState
  saved : Bool
  dispatched : List ChannelAction
  logs : List LogEntry
  deriving Repr, DecidableEq

/-- Models `check_usage` (lines 153-218) as a pure function of the configuration, the
channel environment, the current time, the in-memory state and the fetch
outcome.  The branch structure, the order of the in-memory mutations
(`last_check` on line 175 before any comparison) and the placement of the
context loop before the state update of the notification branch follow the
source line by line; every exception that escapes the body is caught at
line 215 and printed as `Error checking usage: {e}`. -/
def check_usage (cfg : Config) (env : ChannelEnv) (now : Nat)
    (st : MonitorState) (fetched : Except FetchError UsageSnapshot) : PollResult :=
  match fetched with
  | .error e => ⟨st, false, [], [.errorChecking ("Error checking usage: " ++ e.message)]⟩
  | .ok usage =>
    match normalizeTotal usage with
    | .error e => ⟨st, false, [], [.errorChecking ("Error checking usage: " ++ e.message)]⟩
    | .ok current =>
      let last := st.last_total_cents
      let st1 : MonitorState := { st with last_check := some now }
      if last = 0 ∧ 0 < current then
        ⟨{ st1 with last_total_cents := current }, true, [], []⟩
      else if last < current then
        let inc := current - last
        if cfg.notification_threshold_cents ≤ inc then
          let msg := "Spending increased by $" ++ formatDollars inc ++
            " (Total: $" ++ formatDollars current ++ ")"
          let acts := send_notification cfg env now msg
          if usage.usageEvents.isEmpty then
            ⟨{ st1 with last_total_cents := current }, true, acts, []⟩
          else
            let r := renderEvents (recentEvents usage)
            if r.2 then
              ⟨st1, false, acts,
                r.1 ++ [.errorChecking ("Error checking usage: " ++ KeyError.missingTimestamp.message)]⟩
            else
              ⟨{ st1 with last_total_cents := current }, true, acts, r.1⟩
        else
          ⟨{ st1 with last_total_cents := current }, true, [],
            [.subThreshold inc cfg.notification_threshold_cents]⟩
      else if current = last then
        ⟨st1, false, [], [.noChange current]⟩
      else
        ⟨{ st1 with last_total_cents := current }, true, [],
          [.decreased last current]⟩

/-! ## Concrete fixtures used in witnesses and evaluations -/

/-- A configuration with the default threshold of 50 cents and only the
console channel enabled (the default `notification_methods`). -/
def cfg0 : Config := ⟨50, ⟨true, false, false, ""⟩⟩

/-- A channel environment in which every channel would succeed. -/
def env0 : ChannelEnv := ⟨.ok, .ok⟩

/-- A tracking state with a 200-cent baseline and no recorded check time. -/
def st200 : MonitorState := ⟨200, none⟩

/-- A snapshot whose first (and only) line item reports 260 cents. -/
def snapOk : UsageSnapshot := ⟨[⟨some 260⟩], []⟩

/-- Like `snapOk` but with one positively priced usage event that lacks its
`timestamp` key. -/
def snapBad : UsageSnapshot := ⟨[⟨some 260⟩], [⟨some 10, none, none⟩]⟩

/-- A responder whose every month returns HTTP 200 with an empty body. -/
def respEmpty : Nat × Nat → HttpOutcome :=
  fun _ => .response 200 (.ok emptySnapshot)

/-- A snapshot whose first line item reports zero cents (a rollover read). -/
def snapZero : UsageSnapshot := ⟨[⟨some 0⟩], []⟩

/-- A configuration with all three channels enabled and a webhook URL set. -/
def cfgAll : Config := ⟨50, ⟨true, true, true, "https://hooks.example/x"⟩⟩

/-- A channel environment in which the desktop import and the webhook POST
both fail. -/
def envFail : ChannelEnv := ⟨.importError, .transportError "connection refused"⟩

/-- A responder that rejects the credential with HTTP 401. -/
def resp401 : Nat × Nat → HttpOutcome :=
  fun _ => .response 401 (.ok emptySnapshot)

/-- A responder whose `requests.post` raises a transport exception. -/
def respNet : Nat × Nat → HttpOutcome :=
  fun _ => .requestException "timeout"

/-- A responder that returns HTTP 200 with a body that is not valid JSON. -/
def respBadJson : Nat × Nat → HttpOutcome :=
  fun _ => .response 200 (.error "Expecting value")

/-- A responder that returns HTTP 500. -/
def resp500 : Nat × Nat → HttpOutcome :=
  fun _ => .response 500 (.ok emptySnapshot)

/-! ## Branch lemmas for `check_usage` -/

/-- A fetch error reaches the handler of line 215: logged, nothing else. -/
theorem check_usage_fetch_error (cfg : Config) (env : ChannelEnv) (now : Nat)
    (st : MonitorState) (e : FetchError) :
    check_usage cfg env now st (.error e) =
      ⟨st, false, [], [.errorChecking ("Error checking usage: " ++ e.message)]⟩ := rfl

/-- A `KeyError` from the normalizer reaches the handler of line 215. -/
theorem check_usage_norm_error (cfg : Config) (env : ChannelEnv) (now : Nat)
    (st : MonitorState) (u : UsageSnapshot) (e : KeyError)
    (hnorm : normalizeTotal u = .error e) :
    check_usage cfg env now st (.ok u) =
      ⟨st, false, [], [.errorChecking ("Error checking usage: " ++ e.message)]⟩ := by
  simp only [check_usage, hnorm]

/-- The first-run branch (lines 177-181). -/
theorem check_usage_first_run (cfg : Config) (env : ChannelEnv) (now : Nat)
    (st : MonitorState) (u : UsageSnapshot) (cur : Int)
    (hnorm : normalizeTotal u = .ok cur)
    (hlast : st.last_total_cents = 0) (hpos : 0 < cur) :
    check_usage cfg env now st (.ok u) =
      ⟨⟨cur, some now⟩, true, [], []⟩ := by
  simp only [check_usage, hnorm]
  rw [if_pos ⟨hlast, hpos⟩]

/-- The no-change branch (lines 208-209). -/
theorem check_usage_no_change (cfg : Config) (env : ChannelEnv) (now : Nat)
    (st : MonitorState) (u : UsageSnapshot) (cur : Int)
    (hnorm : normalizeTotal u = .ok cur)
    (heq : cur = st.last_total_cents) :
    check_usage cfg env now st (.ok u) =
      ⟨⟨st.last_total_cents, some now⟩, false, [], [.noChange cur]⟩ := by
  simp only [check_usage, hnorm]
  subst heq
  rw [if_neg (by omega), if_neg (by omega), if_pos rfl]

/-- The decrease branch (lines 210-213). -/
theorem check_usage_decrease (cfg : Config) (env : ChannelEnv) (now : Nat)
    (st : MonitorState) (u : UsageSnapshot) (cur : Int)
    (hnorm : normalizeTotal u = .ok cur)
    (hlt : cur < st.last_total_cents) :
    check_usage cfg env now st (.ok u) =
      ⟨⟨cur, some now⟩, true, [], [.decreased st.last_total_cents cur]⟩ := by
  simp only [check_usage, hnorm]
  rw [if_neg (by omega), if_neg (by omega), if_neg (by omega)]

/-- The sub-threshold increase branch (lines 201-206). -/
theorem check_usage_increase_below (cfg : Config) (env : ChannelEnv) (now : Nat)
    (st : MonitorState) (u : UsageSnapshot) (cur : Int)
    (hnorm : normalizeTotal u = .ok cur)
    (hne : st.last_total_cents ≠ 0) (hlt : st.last_total_cents < cur)
    (hthr : cur - st.last_total_cents < cfg.notification_threshold_cents) :
    check_usage cfg env now st (.ok u) =
      ⟨⟨cur, some now⟩, true, [],
        [.subThreshold (cur - st.last_total_cents) cfg.notification_threshold_cents]⟩ := by
  simp only [check_usage, hnorm]
  rw [if_neg (by omega), if_pos hlt, if_neg (by omega)]

/-- The notifying increase branch when the snapshot has no usage events
(lines 183-206, skipping the context loop at line 194). -/
theorem check_usage_increase_notify_no_events (cfg : Config) (env : ChannelEnv)
    (now : Nat) (st : MonitorState) (u : UsageSnapshot) (cur : Int)
    (hnorm : normalizeTotal u = .ok cur)
    (hne : st.last_total_cents ≠ 0) (hlt : st.last_total_cents < cur)
    (hthr : cfg.notification_threshold_cents ≤ cur - st.last_total_cents)
    (hev : u.usageEvents = []) :
    check_usage cfg env now st (.ok u) =
      ⟨⟨cur, some now⟩, true,
        send_notification cfg env now
          ("Spending increased by $" ++ formatDollars (cur - st.last_total_cents) ++
            " (Total: $" ++ formatDollars cur ++ ")"), []⟩ := by
  simp only [check_usage, hnorm]
  rw [if_neg (by omega), if_pos hlt, if_pos hthr, if_pos (by simp [hev])]

/-- The notifying increase branch when the context loop renders every recent
event (no event among the first three positively priced ones lacks its
timestamp). -/
theorem check_usage_increase_notify_events (cfg : Config) (env : ChannelEnv)
    (now : Nat) (st : MonitorState) (u : UsageSnapshot) (cur : Int)
    (hnorm : normalizeTotal u = .ok cur)
    (hne : st.last_total_cents ≠ 0) (hlt : st.last_total_cents < cur)
    (hthr : cfg.notification_threshold_cents ≤ cur - st.last_total_cents)
    (hev : ¬ u.usageEvents.isEmpty)
    (hok : (renderEvents (recentEvents u)).2 = false) :
    check_usage cfg env now st (.ok u) =
      ⟨⟨cur, some now⟩, true,
        send_notification cfg env now
          ("Spending increased by $" ++ formatDollars (cur - st.last_total_cents) ++
            " (Total: $" ++ formatDollars cur ++ ")"),
        (renderEvents (recentEvents u)).1⟩ := by
  simp only [check_usage, hnorm]
  rw [if_neg (by omega), if_pos hlt, if_pos hthr, if_neg (by simpa using hev),
    if_neg (by simp [hok])]

/-! ## Claims -/

/-- C2: every error raised by the fetch or by normalization during a poll is
caught at the poll boundary and logged; the iteration ends without mutating
`MonitorState` (`last_total_cents` keeps its previous value), nothing is
persisted or dispatched, and the error does not propagate. -/
theorem C2_poll_error_isolated (cfg : Config) (env : ChannelEnv) (now : Nat)
    (st : MonitorState) (fetched : Except FetchError UsageSnapshot)
    (herr : (∃ e, fetched = .error e) ∨
      ∃ u e, fetched = .ok u ∧ normalizeTotal u = .error e) :
    (check_usage cfg env now st fetched).state = st ∧
    (check_usage cfg env now st fetched).saved = false ∧
    (check_usage cfg env now st fetched).dispatched = [] ∧
    ∃ m, (check_usage cfg env now st fetched).logs = [.errorChecking m] := by
  rcases herr with ⟨e, rfl⟩ | ⟨u, e, rfl, hnorm⟩
  · exact ⟨rfl, rfl, rfl, ⟨_, rfl⟩⟩
  · rw [check_usage_norm_error cfg env now st u e hnorm]
    exact ⟨rfl, rfl, rfl, ⟨_, rfl⟩⟩

/-- Witness for C2 at a concrete authentication failure. -/
theorem C2_poll_error_isolated_witness :
    (check_usage cfg0 env0 3 st200 (.error .authenticationFailed)).state = st200 ∧
    (check_usage cfg0 env0 3 st200 (.error .authenticationFailed)).saved = false ∧
    (check_usage cfg0 env0 3 st200 (.error .authenticationFailed)).dispatched = [] ∧
    ∃ m, (check_usage cfg0 env0 3 st200 (.error .authenticationFailed)).logs =
      [.errorChecking m] :=
  C2_poll_error_isolated cfg0 env0 3 st200 _ (Or.inl ⟨_, rfl⟩)

/-- C3 counterexample: the claim says normalization does not fail when the
first line item lacks its amount field, but `usage_data['items'][0]['cents']`
raises `KeyError('cents')` there and the poll fails to its boundary handler. -/
theorem C3_counterexample :
    normalizeTotal ⟨[⟨none⟩], []⟩ = .error .missingCents ∧
    (check_usage cfg0 env0 3 st200 (.ok ⟨[⟨none⟩], []⟩)).logs =
      [.errorChecking "Error checking usage: 'cents'"] := by
  exact ⟨rfl, rfl⟩

/-- C3 (amended): normalization yields the first line item's cents when that
item carries the field, else (no items) the sum of each event's `priceCents`
with a missing price treated as zero (zero in particular when both lists are
empty); but a first line item without its `cents` field raises `KeyError`,
failing the poll to the boundary handler, which leaves the state unchanged,
persists nothing and logs the error. -/
theorem C3_normalizer_amended (cfg : Config) (env : ChannelEnv) (now : Nat)
    (st : MonitorState) (u : UsageSnapshot) :
    (∀ c rest, u.items = ⟨some c⟩ :: rest → normalizeTotal u = .ok c) ∧
    (u.items = [] →
      normalizeTotal u = .ok (u.usageEvents.map (fun e => e.priceCents.getD 0)).sum) ∧
    (∀ rest, u.items = ⟨none⟩ :: rest →
      (check_usage cfg env now st (.ok u)).state = st ∧
      (check_usage cfg env now st (.ok u)).saved = false ∧
      (check_usage cfg env now st (.ok u)).logs =
        [.errorChecking "Error checking usage: 'cents'"]) := by
  refine ⟨?_, ?_, ?_⟩
  · intro c rest h
    simp [normalizeTotal, h]
  · intro h
    simp only [normalizeTotal, h]
    split_ifs with hev
    · rfl
    · have hnil : u.usageEvents = [] := List.length_eq_zero.mp (by omega)
      simp [hnil]
  · intro rest h
    have hnorm : normalizeTotal u = .error .missingCents := by
      simp [normalizeTotal, h]
    rw [check_usage_norm_error cfg env now st u _ hnorm]
    exact ⟨rfl, rfl, rfl⟩

/-- Witness for C3 (amended), covering all three conjuncts at concrete
snapshots. -/
theorem C3_normalizer_amended_witness :
    normalizeTotal snapOk = .ok 260 ∧
    normalizeTotal ⟨[], [⟨some 10, some 1, none⟩, ⟨none, some 2, none⟩]⟩ = .ok 10 ∧
    (check_usage cfg0 env0 3 st200 (.ok ⟨[⟨none⟩], []⟩)).saved = false :=
  ⟨(C3_normalizer_amended cfg0 env0 3 st200 snapOk).1 260 [] rfl,
   by simpa using
     (C3_normalizer_amended cfg0 env0 3 st200
       ⟨[], [⟨some 10, some 1, none⟩, ⟨none, some 2, none⟩]⟩).2.1 rfl,
   ((C3_normalizer_amended cfg0 env0 3 st200 ⟨[⟨none⟩], []⟩).2.2 [] rfl).2.1⟩

/-- C4: in the baseline-unset state (stored total zero), a positive new total
is stored as the baseline with no notification dispatched, for any
configuration and threshold. -/
theorem C4_first_run_suppression (cfg : Config) (env : ChannelEnv) (now : Nat)
    (st : MonitorState) (u : UsageSnapshot) (cur : Int)
    (hnorm : normalizeTotal u = .ok cur)
    (hzero : st.last_total_cents = 0) (hpos : 0 < cur) :
    (check_usage cfg env now st (.ok u)).state.last_total_cents = cur ∧
    (check_usage cfg env now st (.ok u)).saved = true ∧
    (check_usage cfg env now st (.ok u)).dispatched = [] := by
  rw [check_usage_first_run cfg env now st u cur hnorm hzero hpos]
  exact ⟨rfl, rfl, rfl⟩

/-- Witness for C4: a first observed total of 260 cents, far above the
1-cent threshold, is stored silently. -/
theorem C4_first_run_suppression_witness :
    (check_usage ⟨1, ⟨true, true, true, "https://hooks.example/x"⟩⟩ env0 4
      ⟨0, none⟩ (.ok snapOk)).state.last_total_cents = 260 ∧
    (check_usage ⟨1, ⟨true, true, true, "https://hooks.example/x"⟩⟩ env0 4
      ⟨0, none⟩ (.ok snapOk)).saved = true ∧
    (check_usage ⟨1, ⟨true, true, true, "https://hooks.example/x"⟩⟩ env0 4
      ⟨0, none⟩ (.ok snapOk)).dispatched = [] :=
  C4_first_run_suppression _ env0 4 ⟨0, none⟩ snapOk 260 rfl rfl (by norm_num)

/-- C5: the baseline-unset branch keys on `last_total_cents == 0` alone, so a
poll that persisted a rollover to zero puts the next positive total through
first-run suppression as well: after a rollover-to-zero poll, the following
poll stores its positive total without dispatching, regardless of the
threshold. -/
theorem C5_post_rollover_suppression (cfg : Config) (env env2 : ChannelEnv)
    (now now2 : Nat) (st : MonitorState) (u u2 : UsageSnapshot) (cur2 : Int)
    (hzero : normalizeTotal u = .ok 0)
    (hpos0 : 0 < st.last_total_cents)
    (hnorm2 : normalizeTotal u2 = .ok cur2) (hpos2 : 0 < cur2) :
    (check_usage cfg env now st (.ok u)).saved = true ∧
    (check_usage cfg env now st (.ok u)).state.last_total_cents = 0 ∧
    (check_usage cfg env2 now2 (check_usage cfg env now st (.ok u)).state
      (.ok u2)).state.last_total_cents = cur2 ∧
    (check_usage cfg env2 now2 (check_usage cfg env now st (.ok u)).state
      (.ok u2)).dispatched = [] ∧
    (check_usage cfg env2 now2 (check_usage cfg env now st (.ok u)).state
      (.ok u2)).saved = true := by
  have h1 := check_usage_decrease cfg env now st u 0 hzero hpos0
  have h2 := check_usage_first_run cfg env2 now2 ⟨0, some now⟩ u2 cur2 hnorm2 rfl hpos2
  simp only [h1, h2]
  exact ⟨trivial, trivial, trivial, trivial, trivial⟩

/-- Witness for C5: a 500-cent baseline rolls over to zero, then a 260-cent
total (above the 50-cent threshold) is stored silently. -/
theorem C5_post_rollover_suppression_witness :
    (check_usage cfg0 env0 5 ⟨500, none⟩ (.ok snapZero)).saved = true ∧
    (check_usage cfg0 env0 5 ⟨500, none⟩ (.ok snapZero)).state.last_total_cents = 0 ∧
    (check_usage cfg0 env0 6 (check_usage cfg0 env0 5 ⟨500, none⟩ (.ok snapZero)).state
      (.ok snapOk)).state.last_total_cents = 260 ∧
    (check_usage cfg0 env0 6 (check_usage cfg0 env0 5 ⟨500, none⟩ (.ok snapZero)).state
      (.ok snapOk)).dispatched = [] ∧
    (check_usage cfg0 env0 6 (check_usage cfg0 env0 5 ⟨500, none⟩ (.ok snapZero)).state
      (.ok snapOk)).saved = true :=
  C5_post_rollover_suppression cfg0 env0 env0 5 6 ⟨500, none⟩ snapZero snapOk 260
    rfl (by norm_num) rfl (by norm_num)

/-- C6: a decrease of the normalized total is interpreted as a billing-cycle
rollover: the new total is persisted as the baseline, an informational line is
logged, and nothing is dispatched, for any magnitude of decrease. -/
theorem C6_rollover_never_alerts (cfg : Config) (env : ChannelEnv) (now : Nat)
    (st : MonitorState) (u : UsageSnapshot) (cur : Int)
    (hnorm : normalizeTotal u = .ok cur)
    (hlt : cur < st.last_total_cents) :
    (check_usage cfg env now st (.ok u)).state.last_total_cents = cur ∧
    (check_usage cfg env now st (.ok u)).saved = true ∧
    (check_usage cfg env now st (.ok u)).dispatched = [] ∧
    (check_usage cfg env now st (.ok u)).logs =
      [.decreased st.last_total_cents cur] := by
  rw [check_usage_decrease cfg env now st u cur hnorm hlt]
  exact ⟨rfl, rfl, rfl, rfl⟩

/-- Witness for C6: 500 cents dropping to 0 persists 0 and stays silent. -/
theorem C6_rollover_never_alerts_witness :
    (check_usage cfg0 env0 5 ⟨500, none⟩ (.ok snapZero)).state.last_total_cents = 0 ∧
    (check_usage cfg0 env0 5 ⟨500, none⟩ (.ok snapZero)).saved = true ∧
    (check_usage cfg0 env0 5 ⟨500, none⟩ (.ok snapZero)).dispatched = [] ∧
    (check_usage cfg0 env0 5 ⟨500, none⟩ (.ok snapZero)).logs = [.decreased 500 0] :=
  C6_rollover_never_alerts cfg0 env0 5 ⟨500, none⟩ snapZero 0 rfl (by norm_num)

/-- C7 counterexample: with `cur == last` the claim says no field of the
state changes, but line 175 sets `last_check` to the current time in memory
before the comparison, so the state record does change. -/
theorem C7_counterexample :
    (check_usage cfg0 env0 7 st200 (.ok ⟨[⟨some 200⟩], []⟩)).state ≠ st200 := by
  decide

/-- C7 (amended): with `cur == last` the poll leaves `last_total_cents`
unchanged, dispatches nothing, persists nothing and only logs the no-change
line — but the in-memory `last_check` field is set to the current poll time
(without being written to disk). -/
theorem C7_no_change_amended (cfg : Config) (env : ChannelEnv) (now : Nat)
    (st : MonitorState) (u : UsageSnapshot) (cur : Int)
    (hnorm : normalizeTotal u = .ok cur)
    (heq : cur = st.last_total_cents) :
    check_usage cfg env now st (.ok u) =
      ⟨⟨st.last_total_cents, some now⟩, false, [], [.noChange cur]⟩ :=
  check_usage_no_change cfg env now st u cur hnorm heq

/-- Witness for C7 (amended) at a 200-cent no-change poll. -/
theorem C7_no_change_amended_witness :
    check_usage cfg0 env0 7 st200 (.ok ⟨[⟨some 200⟩], []⟩) =
      ⟨⟨200, some 7⟩, false, [], [.noChange 200]⟩ :=
  C7_no_change_amended cfg0 env0 7 st200 ⟨[⟨some 200⟩], []⟩ 200 rfl rfl

/-- C1: at the failing input the notifying increase branch dispatches the
claimed message exactly once on the single enabled channel, and with a
well-formed snapshot (no usage events) the baseline becomes 260 as claimed;
but when the snapshot carries a positively priced usage event without its
`timestamp` key, the context loop of lines 196-200 raises after the dispatch
and before the state update of line 205, so the baseline stays at 200 and
nothing is persisted — contradicting the claim (and the comment of line 204,
"Always update the state when spending increases"). -/
theorem C1_dispatch_without_update :
    (check_usage cfg0 env0 7 st200 (.ok snapOk)).dispatched =
      [.consolePrint 7 "Spending increased by $0.60 (Total: $2.60)"] ∧
    (check_usage cfg0 env0 7 st200 (.ok snapOk)).state.last_total_cents = 260 ∧
    (check_usage cfg0 env0 7 st200 (.ok snapOk)).saved = true ∧
    (check_usage cfg0 env0 7 st200 (.ok snapBad)).dispatched =
      [.consolePrint 7 "Spending increased by $0.60 (Total: $2.60)"] ∧
    (check_usage cfg0 env0 7 st200 (.ok snapBad)).state.last_total_cents = 200 ∧
    (check_usage cfg0 env0 7 st200 (.ok snapBad)).saved = false :=
  ⟨rfl, rfl, rfl, rfl, rfl, rfl⟩

/-- C8: the fetcher tries the current month, then the preceding month (with
January falling back to December of the previous year), returns the first
snapshot that has line items or at least one usage event, and when both
months come back empty it returns the explicit empty snapshot without
raising. -/
theorem C8_month_fallback (resp : Nat × Nat → HttpOutcome) (m y : Nat)
    (d1 d2 : UsageSnapshot)
    (h1 : resp (m, y) = .response 200 (.ok d1))
    (h2 : resp (if m > 1 then m - 1 else 12, if m > 1 then y else y - 1) =
      .response 200 (.ok d2)) :
    get_current_usage resp m y =
      (if snapshotNonEmpty d1 then .ok d1
       else if snapshotNonEmpty d2 then .ok d2
       else .ok emptySnapshot) := by
  unfold get_current_usage monthsToTry
  simp [fetchLoop, h1, h2]

/-- Witness for C8: in January 2026 both tried months (January 2026 and
December 2025) are empty and the explicit empty snapshot comes back. -/
theorem C8_month_fallback_witness :
    get_current_usage respEmpty 1 2026 = .ok emptySnapshot := by
  have h := C8_month_fallback respEmpty 1 2026 emptySnapshot emptySnapshot rfl rfl
  simpa [snapshotNonEmpty, emptySnapshot] using h

/-- C9: fetch failures map to four mutually distinct error outcomes — HTTP
401 to the authentication error (immediately, regardless of what the second
month would return), a raised transport exception to the network error, a 200
response with an unparseable body to the parse error (never an empty
snapshot), and any other non-success status to the generic request error. -/
theorem C9_error_classification (resp : Nat × Nat → HttpOutcome) (m y : Nat) :
    (∀ b, resp (m, y) = .response 401 b →
      get_current_usage resp m y = .error .authenticationFailed) ∧
    (∀ d, resp (m, y) = .requestException d →
      get_current_usage resp m y = .error (.networkError d)) ∧
    (∀ d, resp (m, y) = .response 200 (.error d) →
      get_current_usage resp m y = .error (.invalidJson d)) ∧
    (∀ s b, s ≠ 200 → s ≠ 401 → resp (m, y) = .response s b →
      get_current_usage resp m y = .error (.apiRequestFailed s)) ∧
    (∀ d d' s,
      FetchError.authenticationFailed ≠ .networkError d ∧
      FetchError.authenticationFailed ≠ .invalidJson d ∧
      FetchError.authenticationFailed ≠ .apiRequestFailed s ∧
      FetchError.networkError d ≠ .invalidJson d' ∧
      FetchError.networkError d ≠ .apiRequestFailed s ∧
      FetchError.invalidJson d ≠ .apiRequestFailed s) := by
  refine ⟨?_, ?_, ?_, ?_, ?_⟩
  · intro b h
    unfold get_current_usage monthsToTry
    simp [fetchLoop, h]
  · intro d h
    unfold get_current_usage monthsToTry
    simp [fetchLoop, h]
  · intro d h
    unfold get_current_usage monthsToTry
    simp [fetchLoop, h]
  · intro s b hs200 hs401 h
    unfold get_current_usage monthsToTry
    simp [fetchLoop, h, hs200, hs401]
  · intro d d' s
    refine ⟨?_, ?_, ?_, ?_, ?_, ?_⟩ <;> intro h <;> exact FetchError.noConfusion h

/-- Witness for C9: the four classes at concrete responders. -/
theorem C9_error_classification_witness :
    get_current_usage resp401 5 2026 = .error .authenticationFailed ∧
    get_current_usage respNet 5 2026 = .error (.networkError "timeout") ∧
    get_current_usage respBadJson 5 2026 = .error (.invalidJson "Expecting value") ∧
    get_current_usage resp500 5 2026 = .error (.apiRequestFailed 500) :=
  ⟨(C9_error_classification resp401 5 2026).1 _ rfl,
   (C9_error_classification respNet 5 2026).2.1 "timeout" rfl,
   (C9_error_classification respBadJson 5 2026).2.2.1 "Expecting value" rfl,
   (C9_error_classification resp500 5 2026).2.2.2.1 500 _ (by norm_num) (by norm_num) rfl⟩

/-- C10: notification dispatch fans out to the enabled channels and each
channel is best-effort and isolated — every enabled channel produces exactly
one action whatever the other channels' outcomes, an unavailable or failing
desktop capability degrades to a warning print, a webhook transport error is
swallowed into a warning print, and the poll outcome (state and persistence)
does not depend on the channel environment at all. -/
theorem C10_channel_isolation (cfg : Config) (env env2 : ChannelEnv) (now : Nat)
    (msg : String) (st : MonitorState) (fetched : Except FetchError UsageSnapshot) :
    (∀ c, (send_notification cfg env now msg).countP (fun a => a.channel == c) =
      if channelEnabled cfg c then 1 else 0) ∧
    (cfg.notification_methods.desktop = true → env.desktop ≠ .ok →
      ∃ d, ChannelAction.desktopWarn d ∈ send_notification cfg env now msg) ∧
    (∀ d, channelEnabled cfg .webhook = true → env.webhook = .transportError d →
      ChannelAction.webhookWarn ("Webhook notification failed: " ++ d) ∈
        send_notification cfg env now msg) ∧
    ((check_usage cfg env now st fetched).state =
      (check_usage cfg env2 now st fetched).state ∧
     (check_usage cfg env now st fetched).saved =
      (check_usage cfg env2 now st fetched).saved) := by
  refine ⟨?_, ?_, ?_, ?_⟩
  · intro c
    obtain ⟨thr, ⟨co, de, wh, url⟩⟩ := cfg
    obtain ⟨denv, wenv⟩ := env
    cases c <;> cases co <;> cases de <;> cases wh <;> cases denv <;> cases wenv <;>
      by_cases hu : url = "" <;>
        simp [send_notification, consoleActions, desktopActions, webhookActions,
          channelEnabled, ChannelAction.channel, List.countP_append, List.countP_cons,
          beq_iff_eq, hu]
  · intro hd hne
    obtain ⟨denv, wenv⟩ := env
    cases denv with
    | ok => exact absurd rfl hne
    | importError =>
      exact ⟨"Desktop notifications require the 'pync' package. Install with: pip install pync",
        by simp [send_notification, desktopActions, hd]⟩
    | otherError d =>
      exact ⟨"Desktop notification failed: " ++ d,
        by simp [send_notification, desktopActions, hd]⟩
  · intro d hw he
    simp only [channelEnabled, Bool.and_eq_true, Bool.not_eq_true', beq_eq_false_iff_ne] at hw
    simp [send_notification, webhookActions, hw.1, hw.2, he]
  · rcases fetched with e | u
    · exact ⟨rfl, rfl⟩
    · rcases hn : normalizeTotal u with e | cur
      · rw [check_usage_norm_error cfg env now st u e hn,
          check_usage_norm_error cfg env2 now st u e hn]
        exact ⟨rfl, rfl⟩
      · simp only [check_usage, hn]
        split_ifs <;> exact ⟨rfl, rfl⟩

/-- Witness for C10: all channels enabled, desktop import and webhook POST
both failing; console still dispatches once, both failures degrade to
warnings, and the poll outcome matches the all-ok environment. -/
theorem C10_channel_isolation_witness :
    (send_notification cfgAll envFail 9 "m").countP
      (fun a => a.channel == Channel.console) = 1 ∧
    (∃ d, ChannelAction.desktopWarn d ∈ send_notification cfgAll envFail 9 "m") ∧
    ChannelAction.webhookWarn ("Webhook notification failed: " ++ "connection refused") ∈
      send_notification cfgAll envFail 9 "m" ∧
    (check_usage cfgAll envFail 9 st200 (.ok snapOk)).state =
      (check_usage cfgAll env0 9 st200 (.ok snapOk)).state := by
  have h := C10_channel_isolation cfgAll envFail env0 9 "m" st200 (.ok snapOk)
  refine ⟨?_, ?_, ?_, h.2.2.2.1⟩
  · have h1 := h.1 Channel.console
    simpa [cfgAll, channelEnabled] using h1
  · exact h.2.1 rfl (by decide)
  · exact h.2.2.1 "connection refused" (by decide) rfl
